import Mathlib

/-!
Verification of the `clay` MCP extension host scripts
(`src/server/mcp/extensions/python-loader.py` and
`src/server/mcp/extensions/python-handler.py`) against their
natural-language specification.

The Python scripts are shallowly embedded: JSON values are an inductive
type, Python dictionaries are association lists, Python callables are
Lean functions returning `Except String JSON` (an `error` value models a
raised exception whose message is `str(e)`), and each script's behaviour
after the module has been loaded is a pure Lean function.
-/

/-- JSON values, as produced by `json.dump`. Objects keep insertion order,
matching Python dictionaries. -/
inductive JSON where
  | null : JSON
  | str (s : String) : JSON
  | int (n : Int) : JSON
  | boolean (b : Bool) : JSON
  | arr (elems : List JSON) : JSON
  | obj (fields : List (String × JSON)) : JSON

/-- Look a key up in a JSON-object field list (Python `d[k]` / `d.get(k)`):
the value at the first matching key, if any. -/
def lookupKey (fields : List (String × JSON)) (k : String) : Option JSON :=
  (fields.find? (fun p => p.1 == k)).map (fun p => p.2)

/-- Remove a key from a JSON-object field list (the removal half of
Python `d.pop(k)`). -/
def removeKey (fields : List (String × JSON)) (k : String) :
    List (String × JSON) :=
  fields.filter (fun p => p.1 != k)

/-- Field access on a JSON value: `jsonField (obj fs) k` is the value at
`k`; any other shape has no fields. -/
def jsonField : JSON → String → Option JSON
  | JSON.obj fields, k => lookupKey fields k
  | _, _ => none

/-! ## The Invocation Handler (`python-handler.py`) -/

/-- How a resolved callable is invoked by the handler: either with two
positional arguments (the `resource` dispatch `func(uri, uri_params)`), or
with keyword arguments (`func(**params)`). -/
inductive CallArgs where
  | positional (uri : JSON) (uriParams : JSON) : CallArgs
  | keyword (kwargs : List (String × JSON)) : CallArgs

/-- A Python callable as seen by the handler: it receives its arguments
and either returns a JSON-serializable value or raises an exception with
message `str(e)`. -/
def PyFunc : Type := CallArgs → Except String JSON

/-- A loaded module's attribute table, restricted to its callables;
`getattr(module, name, None)` is association-list lookup. -/
def getattrOpt (module : List (String × PyFunc)) (name : String) :
    Option PyFunc :=
  (module.find? (fun p => p.1 == name)).map (fun p => p.2)

/-- The body of the `try` block of `call_handler`, from loading the
parameters onwards: pop `function_name`, resolve it, dispatch on the
handler type, and produce the value that will be written to the result
file. `Except.error e` models an exception propagating to the
`except` clause. -/
def handler_body (module : List (String × PyFunc)) (handler_type : String)
    (params : List (String × JSON)) : Except String JSON :=
  match lookupKey params "function_name" with
  | none => Except.error "\x27function_name\x27"
  | some (JSON.str fname) =>
    let rest := removeKey params "function_name"
    (match getattrOpt module fname with
     | none =>
       Except.ok (JSON.obj
         [("error", JSON.str ("Function " ++ fname ++ " not found"))])
     | some func =>
       if handler_type == "resource" then
         match lookupKey rest "uri" with
         | none => Except.error "\x27uri\x27"
         | some uri =>
           match lookupKey rest "params" with
           | none => Except.error "\x27params\x27"
           | some uriParams => func (CallArgs.positional uri uriParams)
       else func (CallArgs.keyword rest))
  | some _ => Except.error "attribute name must be string"

/-- What one handler run leaves behind: the JSON written to the result
file, and the boolean returned by `call_handler`. -/
structure HandlerOutcome where
  written : JSON
  success : Bool

/-- Turn the outcome of the `try` body into the run's outcome: a normal
value is written and `True` returned; a caught exception writes
`{"error": str(e)}` and returns `False`. -/
def outcomeOf : Except String JSON → HandlerOutcome
  | Except.ok v => { written := v, success := true }
  | Except.error e => { written := JSON.obj [("error", JSON.str e)], success := false }

/-- `call_handler` after the module has been loaded and the parameter
file read: run the body, catch any exception, always write a result. -/
def call_handler (module : List (String × PyFunc)) (handler_type : String)
    (params : List (String × JSON)) : HandlerOutcome :=
  outcomeOf (handler_body module handler_type params)

/-- The `__main__` block of both scripts: `sys.exit(0 if success else 1)`. -/
def exit_code (success : Bool) : Nat :=
  if success then 0 else 1

/-! ## String primitives shared by the loader

Python string operations (`strip`, `split`, `lower`, `startswith`) are
modelled on the character list underlying a `String`. -/

/-- Python `s.rstrip()` on a character list. -/
def stripRightChars (l : List Char) : List Char :=
  (l.reverse.dropWhile Char.isWhitespace).reverse

/-- Python `s.strip()` on a character list. -/
def stripChars (l : List Char) : List Char :=
  (stripRightChars l).dropWhile Char.isWhitespace

/-- Python `s.strip()`. -/
def pyStrip (s : String) : String :=
  ⟨stripChars s.data⟩

/-- Python `s.split("\n")` on a character list: every occurrence of the
newline separates pieces, empty pieces kept, `"".split` giving `[""]`. -/
def splitLines : List Char → List (List Char)
  | [] => [[]]
  | '\n' :: rest => [] :: splitLines rest
  | c :: rest =>
    match splitLines rest with
    | [] => [[c]]
    | l :: ls => (c :: l) :: ls

/-- Python `line.lower().startswith(marker)` for the three section
markers recognised by `parse_docstring`. -/
def isSectionMarker (l : List Char) : Bool :=
  let low := l.map Char.toLower
  List.isPrefixOf "args:".data low ||
  List.isPrefixOf "arguments:".data low ||
  List.isPrefixOf "returns:".data low

/-- Python `s.startswith(p)` on the underlying character lists. -/
def pyStartsWith (s p : String) : Bool :=
  List.isPrefixOf p.data s.data

/-- Python `s[n:]` on the underlying character lists. -/
def pyDrop (s : String) (n : Nat) : String :=
  ⟨s.data.drop n⟩

/-! ## The Extension Loader (`python-loader.py`) -/

/-- The `for line in lines` loop of `parse_docstring`: each line is
stripped, the loop breaks at the first stripped line that starts with a
section marker, and every earlier stripped line is appended to the
accumulator followed by a single space (`description += line + " "`). -/
def docstringLoop : List (List Char) → List Char
  | [] => []
  | l :: rest =>
    let line := stripChars l
    if isSectionMarker line then []
    else line ++ [' '] ++ docstringLoop rest

/-- `parse_docstring`: empty (or absent) documentation yields `""`;
otherwise the stripped docstring is split into lines, the loop above
accumulates the description, and the result is stripped. -/
def parse_docstring (docstring : String) : String :=
  if docstring = "" then ""
  else ⟨stripChars (docstringLoop (splitLines (stripChars docstring.data)))⟩

/-- Python type annotations as the loader distinguishes them: the six
recognised builtin shapes, parameterized `list`/`dict` generics (whose
`__origin__` is `list`/`dict`), `Union` types (including
`Optional[T] = Union[T, None]`), `NoneType`, `Any`, and arbitrary other
annotations. -/
inductive PyType where
  | int : PyType
  | float : PyType
  | str : PyType
  | bool : PyType
  | list : PyType
  | dict : PyType
  | listOf (arg : PyType) : PyType
  | dictOf (key value : PyType) : PyType
  | union (args : List PyType) : PyType
  | noneType : PyType
  | anyType : PyType
  | custom (name : String) : PyType

/-- The equality test against `type(None)` used by `analyze_function`
(`type(None) in args`, `arg != type(None)`). -/
def isNoneType : PyType → Bool
  | PyType.noneType => true
  | _ => false

/-- `type_to_zod_schema`: the chain of equality/`__origin__` tests of the
source, in order. A `union` never equals a builtin and has origin
`Union`, so it falls through to `any()`, as do `NoneType`, `Any` and
custom annotations. -/
def type_to_zod_schema : PyType → String
  | PyType.int => "number().int()"
  | PyType.float => "number()"
  | PyType.str => "string()"
  | PyType.bool => "boolean()"
  | PyType.list => "array()"
  | PyType.listOf _ => "array()"
  | PyType.dict => "object()"
  | PyType.dictOf _ _ => "object()"
  | _ => "any()"

/-- A rendering of the annotation, standing in for Python `str(param_type)`.
No claim depends on its exact text. -/
def pyTypeStr : PyType → String
  | PyType.int => "<class \x27int\x27>"
  | PyType.float => "<class \x27float\x27>"
  | PyType.str => "<class \x27str\x27>"
  | PyType.bool => "<class \x27bool\x27>"
  | PyType.list => "<class \x27list\x27>"
  | PyType.dict => "<class \x27dict\x27>"
  | PyType.listOf _ => "typing.List"
  | PyType.dictOf _ _ => "typing.Dict"
  | PyType.union _ => "typing.Union"
  | PyType.noneType => "<class \x27NoneType\x27>"
  | PyType.anyType => "typing.Any"
  | PyType.custom name => name

/-- One parameter of a callable as `inspect` exposes it: its name, its
annotation from `get_type_hints` when present, and its declared default
when `param.default` is not `inspect.Parameter.empty`. A default of
Python `None` is `some JSON.null`. -/
structure PyParam where
  name : String
  annotation : Option PyType
  default : Option JSON

/-- A callable as the loader introspects it: `__name__`, `__doc__`
(empty string when absent) and the signature's parameters in order. -/
structure PyCallable where
  name : String
  doc : String
  params : List PyParam

/-- The per-parameter record built by `analyze_function`. -/
structure ParamInfo where
  type : String
  zod_type : String
  has_default : Bool
  default_value : JSON
  is_optional : Bool
  description : String

/-- The body of the parameter loop of `analyze_function`:
`param_type = type_hints.get(param_name, Any)`; `has_default` from the
declaration; if the annotation's `__origin__` is `Union` and `NoneType`
is among its arguments, `is_optional` becomes true and `param_type`
becomes the first non-`None` argument (when one exists); the record then
collects the string form, the Zod schema of the (possibly unwrapped)
type, the default, and `is_optional or has_default`. -/
def analyzeParam (p : PyParam) : ParamInfo :=
  let param_type := p.annotation.getD PyType.anyType
  let has_default := p.default.isSome
  let unwrapped :=
    match param_type with
    | PyType.union args =>
      if args.any isNoneType then
        let non_none_args := args.filter (fun arg => !(isNoneType arg))
        match non_none_args with
        | [] => (true, PyType.union args)
        | t :: _ => (true, t)
      else (false, PyType.union args)
    | t => (false, t)
  let is_optional := unwrapped.1
  let param_type := unwrapped.2
  { type := pyTypeStr param_type
    zod_type := type_to_zod_schema param_type
    has_default := has_default
    default_value := (p.default).getD JSON.null
    is_optional := is_optional || has_default
    description := "" }

/-- The result record of `analyze_function`. -/
structure FuncInfo where
  name : String
  parameters : List (String × ParamInfo)
  description : String

/-- `analyze_function`: keep every parameter except one literally named
`self`, analyze each, and parse the docstring into the description. -/
def analyze_function (func : PyCallable) : FuncInfo :=
  { name := func.name
    parameters :=
      (func.params.filter (fun p => p.name != "self")).map
        (fun p => (p.name, analyzeParam p))
    description := parse_docstring func.doc }

/-- JSON rendering of one parameter record, with the field order the
loader writes. -/
def paramInfoJSON (info : ParamInfo) : JSON :=
  JSON.obj [("type", JSON.str info.type),
            ("zod_type", JSON.str info.zod_type),
            ("has_default", JSON.boolean info.has_default),
            ("default_value", info.default_value),
            ("is_optional", JSON.boolean info.is_optional),
            ("description", JSON.str info.description)]

/-- JSON rendering of a parameters mapping. -/
def parametersJSON (params : List (String × ParamInfo)) : JSON :=
  JSON.obj (params.map (fun p => (p.1, paramInfoJSON p.2)))

/-- A registration object returned by a module's `main()`: a dictionary
read with `.get(key, default)`; `none` models an absent key. Entries of
the three callable sequences are all modelled as callables (the loader
silently skips non-callable entries, which no claim exercises). -/
structure ExtensionDef where
  id : Option String
  description : Option String
  author : Option String
  version : Option String
  tools : List PyCallable
  resources : List PyCallable
  prompts : List PyCallable

/-- A successfully executed extension module, as the loader sees it:
either it has a callable zero-argument `main` returning a registration
object, or it has none. -/
structure PyModule where
  main : Option ExtensionDef

/-- The tool entry built inside `load_extension`: analyze the function,
strip a leading `tool_` from its name (five characters), and build the
descriptor whose `id` is `f"{result[id]}-{tool_name}"` when the
extension id is truthy (non-empty) and the bare name otherwise. -/
def toolEntry (ext_id : String) (func : PyCallable) : JSON :=
  let func_info := analyze_function func
  let tool_name := func_info.name
  let tool_name := if pyStartsWith tool_name "tool_" then pyDrop tool_name 5 else tool_name
  JSON.obj [("id", JSON.str (if ext_id ≠ "" then ext_id ++ "-" ++ tool_name else tool_name)),
            ("function_name", JSON.str func_info.name),
            ("description", JSON.str func_info.description),
            ("parameters", parametersJSON func_info.parameters)]

/-- The resource entry built inside `load_extension`: same shape as a
tool entry with the `resource_` role (nine characters) and an added
`template` of `f"{resource_name}://{path}"` with a literal
`{path}` placeholder. -/
def resourceEntry (ext_id : String) (func : PyCallable) : JSON :=
  let func_info := analyze_function func
  let resource_name := func_info.name
  let resource_name := if pyStartsWith resource_name "resource_" then pyDrop resource_name 9 else resource_name
  JSON.obj [("id", JSON.str (if ext_id ≠ "" then ext_id ++ "-" ++ resource_name else resource_name)),
            ("function_name", JSON.str func_info.name),
            ("description", JSON.str func_info.description),
            ("parameters", parametersJSON func_info.parameters),
            ("template", JSON.str (resource_name ++ "://\x7bpath\x7d"))]

/-- The prompt entry built inside `load_extension`, with the `prompt_`
role (seven characters). -/
def promptEntry (ext_id : String) (func : PyCallable) : JSON :=
  let func_info := analyze_function func
  let prompt_name := func_info.name
  let prompt_name := if pyStartsWith prompt_name "prompt_" then pyDrop prompt_name 7 else prompt_name
  JSON.obj [("id", JSON.str (if ext_id ≠ "" then ext_id ++ "-" ++ prompt_name else prompt_name)),
            ("function_name", JSON.str func_info.name),
            ("description", JSON.str func_info.description),
            ("parameters", parametersJSON func_info.parameters)]

/-- `load_extension` after the module has executed successfully: when a
callable `main` exists, its registration object is turned into the
manifest (basic info with `.get` defaults, the `format` marker, and the
three processed sequences, in the insertion order of the source); when
it does not, `result` stays the empty dictionary `{}`. The returned
boolean is the function's return value (`True`: the manifest was
written). -/
def load_extension (module : PyModule) : JSON × Bool :=
  match module.main with
  | none => (JSON.obj [], true)
  | some extension_def =>
    let ext_id := extension_def.id.getD ""
    (JSON.obj [("id", JSON.str ext_id),
               ("description", JSON.str (extension_def.description.getD "")),
               ("author", JSON.str (extension_def.author.getD "")),
               ("version", JSON.str (extension_def.version.getD "")),
               ("format", JSON.str "dynamic"),
               ("tools", JSON.arr (extension_def.tools.map (toolEntry ext_id))),
               ("resources", JSON.arr (extension_def.resources.map (resourceEntry ext_id))),
               ("prompts", JSON.arr (extension_def.prompts.map (promptEntry ext_id)))],
     true)

/-- Reading a field of the written manifest with a default, as the
manifest's consumer would (`d.get(k, default)` on the parsed JSON). -/
def jsonGetD (j : JSON) (k : String) (default : JSON) : JSON :=
  (jsonField j k).getD default

/-! ## Specification-side definitions

These follow the words of the spec/claims rather than the source, for the
refinement comparisons. -/

/-- Accumulate lines until the first one satisfying the section-marker
test (the claim's "accumulating lines until the first line that
case-insensitively begins with `args:`, `arguments:`, or `returns:`"). -/
def takeUntilMarker : List (List Char) → List (List Char)
  | [] => []
  | l :: rest => if isSectionMarker l then [] else l :: takeUntilMarker rest

/-- Join pieces with single spaces (the claim's "joining the accumulated
lines with single spaces"). -/
def joinSingleSpaces : List (List Char) → List Char
  | [] => []
  | [l] => l
  | l :: rest => l ++ [' '] ++ joinSingleSpaces rest

/-- The description derivation exactly as claim C3 words it: split the
documentation text into lines, accumulate lines until the first line
that case-insensitively begins with a section header, join the
accumulated lines with single spaces, and trim. -/
def descriptionOfClaim (docstring : String) : String :=
  ⟨stripChars (joinSingleSpaces (takeUntilMarker (splitLines docstring.data)))⟩

/-- The amended description derivation: the docstring is trimmed before
splitting, each line is trimmed, accumulation stops at the first
*trimmed* line that case-insensitively begins with a section header, and
the trimmed lines are joined with single spaces and the result trimmed. -/
def descriptionAmended (docstring : String) : String :=
  ⟨stripChars (joinSingleSpaces (takeUntilMarker
    ((splitLines (stripChars docstring.data)).map stripChars)))⟩

/-- The descriptor-id rule as claim C7 words it: strip a leading role
prefix from the declared name to obtain the bare name, then prepend
`"{extension.id}-"` exactly when the extension id is non-empty. -/
def specDescriptorId (ext_id role name : String) : String :=
  let bare := if pyStartsWith name role then pyDrop name role.length else name
  if ext_id = "" then bare else ext_id ++ "-" ++ bare

/-- The closed set of wire primitives of claim C4, in the concrete Zod
spellings of the source: `integer` is `"number().int()"`, `number` is
`"number()"`, and so on, with `any` as `"any()"`. -/
def zodPrimitives : List String :=
  ["number().int()", "number()", "string()", "boolean()", "array()",
   "object()", "any()"]

/-- The annotations the mapping table of the spec recognises; everything
else is "unmapped" and must degrade to `any`. -/
def isRecognizedType : PyType → Bool
  | PyType.int => true
  | PyType.float => true
  | PyType.str => true
  | PyType.bool => true
  | PyType.list => true
  | PyType.listOf _ => true
  | PyType.dict => true
  | PyType.dictOf _ _ => true
  | _ => false

/-! ## Helper lemmas -/

/-- A trailing space never survives a strip. -/
lemma stripChars_append_space (l : List Char) :
    stripChars (l ++ [' ']) = stripChars l := by
  have h : Char.isWhitespace ' ' = true := by decide
  simp [stripChars, stripRightChars, List.dropWhile_cons, h]

/-- Appending one space after every piece is joining with single spaces
plus one trailing space. -/
def joinTrailing : List (List Char) → List Char
  | [] => []
  | l :: rest => l ++ [' '] ++ joinTrailing rest

lemma joinTrailing_eq_append (k : List (List Char)) (h : k ≠ []) :
    joinTrailing k = joinSingleSpaces k ++ [' '] := by
  induction k with
  | nil => exact absurd rfl h
  | cons l rest ih =>
    cases rest with
    | nil => simp [joinTrailing, joinSingleSpaces]
    | cons r rs =>
      show l ++ [' '] ++ joinTrailing (r :: rs) =
        joinSingleSpaces (l :: r :: rs) ++ [' ']
      rw [ih (by simp)]
      show l ++ [' '] ++ (joinSingleSpaces (r :: rs) ++ [' ']) =
        (l ++ [' '] ++ joinSingleSpaces (r :: rs)) ++ [' ']
      simp [List.append_assoc]

lemma stripChars_joinTrailing (k : List (List Char)) :
    stripChars (joinTrailing k) = stripChars (joinSingleSpaces k) := by
  cases k with
  | nil => rfl
  | cons l rest =>
    rw [joinTrailing_eq_append _ (by simp), stripChars_append_space]

/-- The docstring loop of the source is: per-line stripping, cutting at
the first stripped marker line, and appending a space after each kept
line. -/
lemma docstringLoop_eq (ls : List (List Char)) :
    docstringLoop ls = joinTrailing (takeUntilMarker (ls.map stripChars)) := by
  induction ls with
  | nil => rfl
  | cons l rest ih =>
    by_cases h : isSectionMarker (stripChars l)
    · simp [docstringLoop, takeUntilMarker, h, joinTrailing]
    · simp [docstringLoop, takeUntilMarker, h, joinTrailing, ih]

/-! ## Shared concrete fixtures for witnesses -/

/-- A registration object with every key absent. -/
def emptyExtDef : ExtensionDef :=
  { id := none, description := none, author := none, version := none,
    tools := [], resources := [], prompts := [] }

/-- The `tool_add_numbers` callable of the spec's example. -/
def addNumbersFunc : PyCallable :=
  { name := "tool_add_numbers", doc := "Add two numbers",
    params := [{ name := "a", annotation := some PyType.int, default := none },
               { name := "b", annotation := some PyType.int, default := none }] }

/-- A callable raising an exception whatever its arguments. -/
def boomFunc : PyFunc := fun _ => Except.error "division by zero"

/-- A callable returning its arguments, to observe how it was invoked. -/
def probeFunc : PyFunc := fun args =>
  match args with
  | CallArgs.positional uri uriParams => Except.ok (JSON.arr [uri, uriParams])
  | CallArgs.keyword kwargs => Except.ok (JSON.obj kwargs)

/-- A callable returning a fixed greeting. -/
def helloFunc : PyFunc := fun _ => Except.ok (JSON.str "hi")

/-! ## The claims -/

/-- **C1, counterexample.** The claim says a Handler invocation whose
`{error}` result is written exits with code 0, in particular after an
exception inside the callable. On the code, an exception raised by the
callable is caught, the `{error}` object *is* written, yet
`call_handler` returns `False` and the process exits with code 1. -/
theorem c1_error_written_exit_nonzero :
    (call_handler [("boom", boomFunc)] "tool"
        [("function_name", JSON.str "boom")]).written
      = JSON.obj [("error", JSON.str "division by zero")] ∧
    exit_code (call_handler [("boom", boomFunc)] "tool"
        [("function_name", JSON.str "boom")]).success = 1 :=
  ⟨rfl, rfl⟩

/-- **C1, amended.** A result is always written: when the handler body
completes, its value is written and the exit code is 0 (this includes
the function-not-found `{error}` object); when an exception is raised
anywhere in the body — in particular inside the callable — the
`{error}` object is still written but `call_handler` returns `False`
and the exit code is 1, not 0. -/
theorem c1_exit_code_tracks_exceptions
    (module : List (String × PyFunc)) (handler_type : String)
    (params : List (String × JSON)) :
    (∀ v, handler_body module handler_type params = Except.ok v →
      call_handler module handler_type params = { written := v, success := true } ∧
      exit_code (call_handler module handler_type params).success = 0) ∧
    (∀ e, handler_body module handler_type params = Except.error e →
      call_handler module handler_type params
          = { written := JSON.obj [("error", JSON.str e)], success := false } ∧
      exit_code (call_handler module handler_type params).success = 1) := by
  constructor
  · intro v h
    simp [call_handler, h, outcomeOf, exit_code]
  · intro e h
    simp [call_handler, h, outcomeOf, exit_code]

/-- **C1, witness** for the amended theorem, at a callable that returns
normally and one that raises. -/
theorem c1_exit_code_tracks_exceptions_witness :
    (call_handler [("hello", helloFunc)] "tool"
        [("function_name", JSON.str "hello")]
      = { written := JSON.str "hi", success := true } ∧
     exit_code (call_handler [("hello", helloFunc)] "tool"
        [("function_name", JSON.str "hello")]).success = 0) ∧
    (call_handler [("boom", boomFunc)] "prompt"
        [("function_name", JSON.str "boom")]
      = { written := JSON.obj [("error", JSON.str "division by zero")],
          success := false } ∧
     exit_code (call_handler [("boom", boomFunc)] "prompt"
        [("function_name", JSON.str "boom")]).success = 1) :=
  ⟨(c1_exit_code_tracks_exceptions [("hello", helloFunc)] "tool"
      [("function_name", JSON.str "hello")]).1 (JSON.str "hi") rfl,
   (c1_exit_code_tracks_exceptions [("boom", boomFunc)] "prompt"
      [("function_name", JSON.str "boom")]).2 "division by zero" rfl⟩

/-- **C2.** A module that loads successfully but has no callable
zero-argument `main` produces the empty manifest `{}`: reading any of
the `ExtensionManifest` fields out of it with its default yields the
empty string (id, description, author, version) or the empty sequence
(tools, resources, prompts), and `load_extension` returns `True`, so the
Loader exits with status 0. -/
theorem c2_no_entry_point_default_manifest (module : PyModule)
    (h : module.main = none) :
    load_extension module = (JSON.obj [], true) ∧
    jsonGetD (load_extension module).1 "id" (JSON.str "") = JSON.str "" ∧
    jsonGetD (load_extension module).1 "description" (JSON.str "") = JSON.str "" ∧
    jsonGetD (load_extension module).1 "author" (JSON.str "") = JSON.str "" ∧
    jsonGetD (load_extension module).1 "version" (JSON.str "") = JSON.str "" ∧
    jsonGetD (load_extension module).1 "tools" (JSON.arr []) = JSON.arr [] ∧
    jsonGetD (load_extension module).1 "resources" (JSON.arr []) = JSON.arr [] ∧
    jsonGetD (load_extension module).1 "prompts" (JSON.arr []) = JSON.arr [] ∧
    exit_code (load_extension module).2 = 0 := by
  cases module with
  | mk m =>
    cases h
    exact ⟨rfl, rfl, rfl, rfl, rfl, rfl, rfl, rfl, rfl⟩

/-- **C2, witness** at the module with no `main` attribute. -/
theorem c2_no_entry_point_default_manifest_witness :
    load_extension { main := none } = (JSON.obj [], true) ∧
    jsonGetD (load_extension { main := none }).1 "id" (JSON.str "") = JSON.str "" ∧
    jsonGetD (load_extension { main := none }).1 "description" (JSON.str "") = JSON.str "" ∧
    jsonGetD (load_extension { main := none }).1 "author" (JSON.str "") = JSON.str "" ∧
    jsonGetD (load_extension { main := none }).1 "version" (JSON.str "") = JSON.str "" ∧
    jsonGetD (load_extension { main := none }).1 "tools" (JSON.arr []) = JSON.arr [] ∧
    jsonGetD (load_extension { main := none }).1 "resources" (JSON.arr []) = JSON.arr [] ∧
    jsonGetD (load_extension { main := none }).1 "prompts" (JSON.arr []) = JSON.arr [] ∧
    exit_code (load_extension { main := none }).2 = 0 :=
  c2_no_entry_point_default_manifest { main := none } rfl

/-- **C10.** A module whose `main` returns a registration object gets a
manifest carrying the extra field `format = "dynamic"`, outside the
specified `ExtensionManifest` shape; a module without the entry point
produces a manifest with no `format` field at all. -/
theorem c10_format_field (module : PyModule) :
    (∀ d, module.main = some d →
      jsonField (load_extension module).1 "format" = some (JSON.str "dynamic")) ∧
    (module.main = none →
      jsonField (load_extension module).1 "format" = none) := by
  cases module with
  | mk m =>
    cases m with
    | none => exact ⟨fun _ h => (nomatch h), fun _ => rfl⟩
    | some d => exact ⟨fun _ _ => rfl, fun h => (nomatch h)⟩

/-- **C10, witness** at a module with `main` and one without. -/
theorem c10_format_field_witness :
    jsonField (load_extension { main := some emptyExtDef }).1 "format"
      = some (JSON.str "dynamic") ∧
    jsonField (load_extension { main := none }).1 "format" = none :=
  ⟨(c10_format_field { main := some emptyExtDef }).1 emptyExtDef rfl,
   (c10_format_field { main := none }).2 rfl⟩

/-- **C3, counterexample.** On the docstring
`"Add two numbers\n    Args:\n        a: first number"` — the shape of
every docstring in the repository's own extensions, with the section
header indented — the code stops at the indented `Args:` line because it
strips each line before the test, yielding `"Add two numbers"`; the
procedure of the claim tests the raw line, which does not begin with
`args:`, so it keeps accumulating and yields a different string. -/
theorem c3_description_counterexample :
    parse_docstring "Add two numbers\n    Args:\n        a: first number"
      = "Add two numbers" ∧
    descriptionOfClaim "Add two numbers\n    Args:\n        a: first number"
      ≠ "Add two numbers" := by
  constructor
  · decide
  · decide

/-- **C3, amended.** For every callable the derived description equals
the result of: trimming the documentation text, splitting it into lines,
trimming each line, accumulating the trimmed lines until the first whose
trimmed form case-insensitively begins with `args:`, `arguments:` or
`returns:` (or until input is exhausted), joining the accumulated
trimmed lines with single spaces, and trimming; a callable with no
documentation yields the empty string. -/
theorem c3_description_amended :
    (∀ docstring, parse_docstring docstring = descriptionAmended docstring) ∧
    parse_docstring "" = "" := by
  refine ⟨fun docstring => ?_, rfl⟩
  by_cases h : docstring = ""
  · subst h
    decide
  · unfold parse_docstring descriptionAmended
    rw [if_neg h, docstringLoop_eq, stripChars_joinTrailing]

/-- **C4.** `type_to_zod_schema` is a total Lean function; for every
annotation it returns one element of the closed set of seven wire
primitives (in the source's Zod spellings: `integer` is
`"number().int()"`, `number` is `"number()"`, `string` is `"string()"`,
`boolean` is `"boolean()"`, `array` is `"array()"`, `object` is
`"object()"`, `any` is `"any()"`), and every annotation outside the
recognised mapping table degrades to `"any()"`. -/
theorem c4_type_mapper_total (t : PyType) :
    type_to_zod_schema t ∈ zodPrimitives ∧
    (isRecognizedType t = false → type_to_zod_schema t = "any()") := by
  cases t <;> simp [type_to_zod_schema, zodPrimitives, isRecognizedType]

/-- **C4, witness** at an adversarial, unrecognised annotation. -/
theorem c4_type_mapper_total_witness :
    type_to_zod_schema (PyType.custom "Adversarial") ∈ zodPrimitives ∧
    type_to_zod_schema (PyType.custom "Adversarial") = "any()" :=
  ⟨(c4_type_mapper_total (PyType.custom "Adversarial")).1,
   (c4_type_mapper_total (PyType.custom "Adversarial")).2 rfl⟩

/-- **C5.** Every analyzed parameter whose annotation is an optional /
nullable wrapper `Optional[T] = Union[T, None]` over a type `T` and has
no default value appears in the analyzer's output with
`is_optional = true` and with its Zod schema computed from the unwrapped
inner type `T`, never from the wrapper itself. -/
theorem c5_optional_wrapper_unwrapped (func : PyCallable) (p : PyParam)
    (T : PyType) (hmem : p ∈ func.params) (hself : p.name ≠ "self")
    (hann : p.annotation = some (PyType.union [T, PyType.noneType]))
    (hT : isNoneType T = false) (hdef : p.default = none) :
    (p.name, analyzeParam p) ∈ (analyze_function func).parameters ∧
    (analyzeParam p).is_optional = true ∧
    (analyzeParam p).zod_type = type_to_zod_schema T := by
  refine ⟨?_, ?_, ?_⟩
  · exact List.mem_map_of_mem _
      (List.mem_filter.mpr ⟨hmem, by simp [hself]⟩)
  · have hN : isNoneType PyType.noneType = true := rfl
    simp [analyzeParam, hann, hdef, hT, hN]
  · have hN : isNoneType PyType.noneType = true := rfl
    simp [analyzeParam, hann, hdef, hT, hN]

/-- **C5, witness** at a callable with one parameter annotated
`Optional[str]` and no default. -/
theorem c5_optional_wrapper_unwrapped_witness :
    ("who", analyzeParam
        { name := "who",
          annotation := some (PyType.union [PyType.str, PyType.noneType]),
          default := none })
      ∈ (analyze_function
          { name := "tool_greet", doc := "",
            params := [{ name := "who",
                         annotation := some (PyType.union [PyType.str, PyType.noneType]),
                         default := none }] }).parameters ∧
    (analyzeParam
        { name := "who",
          annotation := some (PyType.union [PyType.str, PyType.noneType]),
          default := none }).is_optional = true ∧
    (analyzeParam
        { name := "who",
          annotation := some (PyType.union [PyType.str, PyType.noneType]),
          default := none }).zod_type = type_to_zod_schema PyType.str :=
  c5_optional_wrapper_unwrapped
    { name := "tool_greet", doc := "",
      params := [{ name := "who",
                   annotation := some (PyType.union [PyType.str, PyType.noneType]),
                   default := none }] }
    { name := "who",
      annotation := some (PyType.union [PyType.str, PyType.noneType]),
      default := none }
    PyType.str (List.mem_cons_self _ _) (by decide) rfl rfl rfl

/-- **C6.** Every analyzed parameter carrying a declared default value
appears in the analyzer's output with `has_default = true`, with
`is_optional = true` regardless of the declared type, and with
`default_value` equal to the declared default. -/
theorem c6_default_forces_optional (func : PyCallable) (p : PyParam)
    (v : JSON) (hmem : p ∈ func.params) (hself : p.name ≠ "self")
    (hdef : p.default = some v) :
    (p.name, analyzeParam p) ∈ (analyze_function func).parameters ∧
    (analyzeParam p).has_default = true ∧
    (analyzeParam p).is_optional = true ∧
    (analyzeParam p).default_value = v := by
  refine ⟨?_, ?_, ?_, ?_⟩
  · exact List.mem_map_of_mem _
      (List.mem_filter.mpr ⟨hmem, by simp [hself]⟩)
  · simp [analyzeParam, hdef]
  · simp [analyzeParam, hdef]
  · simp [analyzeParam, hdef]

/-- **C6, witness** at a callable with one integer parameter whose
default is `0`. -/
theorem c6_default_forces_optional_witness :
    ("b", analyzeParam
        { name := "b", annotation := some PyType.int,
          default := some (JSON.int 0) })
      ∈ (analyze_function
          { name := "tool_add", doc := "",
            params := [{ name := "b", annotation := some PyType.int,
                         default := some (JSON.int 0) }] }).parameters ∧
    (analyzeParam
        { name := "b", annotation := some PyType.int,
          default := some (JSON.int 0) }).has_default = true ∧
    (analyzeParam
        { name := "b", annotation := some PyType.int,
          default := some (JSON.int 0) }).is_optional = true ∧
    (analyzeParam
        { name := "b", annotation := some PyType.int,
          default := some (JSON.int 0) }).default_value = JSON.int 0 :=
  c6_default_forces_optional
    { name := "tool_add", doc := "",
      params := [{ name := "b", annotation := some PyType.int,
                   default := some (JSON.int 0) }] }
    { name := "b", annotation := some PyType.int,
      default := some (JSON.int 0) }
    (JSON.int 0) (List.mem_cons_self _ _) (by decide) rfl

/-- The `id` written into a tool entry follows the descriptor-id rule of
the spec for the `tool_` role. -/
lemma toolEntry_id (ext_id : String) (func : PyCallable) :
    jsonField (toolEntry ext_id func) "id"
      = some (JSON.str (specDescriptorId ext_id "tool_" func.name)) := by
  by_cases h : ext_id = ""
  · subst h; rfl
  · simp [toolEntry, specDescriptorId, jsonField, lookupKey, h]
    rfl

/-- The `id` written into a resource entry follows the descriptor-id
rule of the spec for the `resource_` role. -/
lemma resourceEntry_id (ext_id : String) (func : PyCallable) :
    jsonField (resourceEntry ext_id func) "id"
      = some (JSON.str (specDescriptorId ext_id "resource_" func.name)) := by
  by_cases h : ext_id = ""
  · subst h; rfl
  · simp [resourceEntry, specDescriptorId, jsonField, lookupKey, h]
    rfl

/-- The `id` written into a prompt entry follows the descriptor-id rule
of the spec for the `prompt_` role. -/
lemma promptEntry_id (ext_id : String) (func : PyCallable) :
    jsonField (promptEntry ext_id func) "id"
      = some (JSON.str (specDescriptorId ext_id "prompt_" func.name)) := by
  by_cases h : ext_id = ""
  · subst h; rfl
  · simp [promptEntry, specDescriptorId, jsonField, lookupKey, h]
    rfl

/-- The spec example's registration object with an empty extension id. -/
def addNumbersDefNoId : ExtensionDef :=
  { id := none, description := none, author := none, version := none,
    tools := [addNumbersFunc], resources := [], prompts := [] }

/-- The spec example's registration object with extension id
`math-tools`. -/
def addNumbersDefMathTools : ExtensionDef :=
  { id := some "math-tools", description := none, author := none,
    version := none, tools := [addNumbersFunc], resources := [],
    prompts := [] }

/-- **C7.** For every callable registered by the entry point, the
manifest's corresponding sequence contains its descriptor, and that
descriptor's `id` is exactly the claim's rule: strip the role prefix
(`tool_`, `resource_`, `prompt_`) from the declared name to get the
bare name, then `"{extension.id}-{bareName}"` when the extension id is
non-empty and the bare name alone otherwise. -/
theorem c7_descriptor_ids (m : PyModule) (d : ExtensionDef)
    (func : PyCallable) (hmain : m.main = some d) :
    (func ∈ d.tools →
      ∃ entries, jsonField (load_extension m).1 "tools"
          = some (JSON.arr entries) ∧
        ∃ entry, entry ∈ entries ∧
          jsonField entry "function_name" = some (JSON.str func.name) ∧
          jsonField entry "id"
            = some (JSON.str (specDescriptorId (d.id.getD "") "tool_" func.name))) ∧
    (func ∈ d.resources →
      ∃ entries, jsonField (load_extension m).1 "resources"
          = some (JSON.arr entries) ∧
        ∃ entry, entry ∈ entries ∧
          jsonField entry "function_name" = some (JSON.str func.name) ∧
          jsonField entry "id"
            = some (JSON.str (specDescriptorId (d.id.getD "") "resource_" func.name))) ∧
    (func ∈ d.prompts →
      ∃ entries, jsonField (load_extension m).1 "prompts"
          = some (JSON.arr entries) ∧
        ∃ entry, entry ∈ entries ∧
          jsonField entry "function_name" = some (JSON.str func.name) ∧
          jsonField entry "id"
            = some (JSON.str (specDescriptorId (d.id.getD "") "prompt_" func.name))) := by
  cases m with
  | mk mm =>
    cases hmain
    refine ⟨fun h => ⟨_, rfl, toolEntry (d.id.getD "") func,
        List.mem_map_of_mem _ h, rfl, toolEntry_id _ _⟩,
      fun h => ⟨_, rfl, resourceEntry (d.id.getD "") func,
        List.mem_map_of_mem _ h, rfl, resourceEntry_id _ _⟩,
      fun h => ⟨_, rfl, promptEntry (d.id.getD "") func,
        List.mem_map_of_mem _ h, rfl, promptEntry_id _ _⟩⟩

/-- **C7, witness**: `tool_add_numbers` gets descriptor id
`"add_numbers"` under an empty extension id and
`"math-tools-add_numbers"` under extension id `"math-tools"`. -/
theorem c7_descriptor_ids_witness :
    (∃ entries,
      jsonField (load_extension
          { main := some addNumbersDefNoId }).1 "tools"
        = some (JSON.arr entries) ∧
      ∃ entry, entry ∈ entries ∧
        jsonField entry "function_name" = some (JSON.str "tool_add_numbers") ∧
        jsonField entry "id"
          = some (JSON.str (specDescriptorId "" "tool_" "tool_add_numbers"))) ∧
    (∃ entries,
      jsonField (load_extension
          { main := some addNumbersDefMathTools }).1 "tools"
        = some (JSON.arr entries) ∧
      ∃ entry, entry ∈ entries ∧
        jsonField entry "function_name" = some (JSON.str "tool_add_numbers") ∧
        jsonField entry "id"
          = some (JSON.str (specDescriptorId "math-tools" "tool_" "tool_add_numbers"))) ∧
    specDescriptorId "" "tool_" "tool_add_numbers" = "add_numbers" ∧
    specDescriptorId "math-tools" "tool_" "tool_add_numbers"
      = "math-tools-add_numbers" :=
  ⟨(c7_descriptor_ids
      { main := some addNumbersDefNoId }
      addNumbersDefNoId
      addNumbersFunc rfl).1 (List.mem_cons_self _ _),
   (c7_descriptor_ids
      { main := some addNumbersDefMathTools }
      addNumbersDefMathTools
      addNumbersFunc rfl).1 (List.mem_cons_self _ _),
   by decide, by decide⟩

/-- **C8.** When the requested function name does not resolve to an
attribute of the loaded module, the written result is exactly
`{"error": "Function {functionName} not found"}`, `call_handler`
returns `True`, and the process exits with status 0: the case is not a
process-level failure. -/
theorem c8_function_not_found (module : List (String × PyFunc))
    (handler_type : String) (params : List (String × JSON)) (fname : String)
    (hlook : lookupKey params "function_name" = some (JSON.str fname))
    (habs : getattrOpt module fname = none) :
    call_handler module handler_type params =
      { written := JSON.obj
          [("error", JSON.str ("Function " ++ fname ++ " not found"))],
        success := true } ∧
    exit_code (call_handler module handler_type params).success = 0 := by
  have hb : handler_body module handler_type params
      = Except.ok (JSON.obj
          [("error", JSON.str ("Function " ++ fname ++ " not found"))]) := by
    simp [handler_body, hlook, habs]
  constructor
  · simp [call_handler, hb, outcomeOf]
  · simp [call_handler, hb, outcomeOf, exit_code]

/-- **C8, witness**: invoking `bogus_fn` on a module with no attributes
writes `{"error": "Function bogus_fn not found"}` and exits 0. -/
theorem c8_function_not_found_witness :
    call_handler [] "tool" [("function_name", JSON.str "bogus_fn")] =
      { written := JSON.obj
          [("error", JSON.str "Function bogus_fn not found")],
        success := true } ∧
    exit_code (call_handler [] "tool"
        [("function_name", JSON.str "bogus_fn")]).success = 0 :=
  c8_function_not_found [] "tool" [("function_name", JSON.str "bogus_fn")]
    "bogus_fn" rfl rfl

/-- The handler module and payload used to exercise the resource
dispatch. -/
def mathModule : List (String × PyFunc) := [("resource_math", probeFunc)]

/-- A resource invocation payload: function name, `uri` and `params`. -/
def resourceParams : List (String × JSON) :=
  [("function_name", JSON.str "resource_math"),
   ("uri", JSON.str "math://pythagorean"),
   ("params", JSON.obj [])]

/-- **C9.** With `handler_type = "resource"` and a resolved callable,
the callable is invoked positionally with the payload's `uri` and
`params` fields, `(uri, params)`; with any other handler type it is
invoked with the payload fields remaining after removal of
`function_name` as keyword arguments. -/
theorem c9_resource_positional_dispatch (module : List (String × PyFunc))
    (params : List (String × JSON)) (fname : String) (func : PyFunc)
    (u p : JSON)
    (hlook : lookupKey params "function_name" = some (JSON.str fname))
    (hres : getattrOpt module fname = some func)
    (huri : lookupKey (removeKey params "function_name") "uri" = some u)
    (hpar : lookupKey (removeKey params "function_name") "params" = some p) :
    call_handler module "resource" params
      = outcomeOf (func (CallArgs.positional u p)) ∧
    (∀ handler_type, handler_type ≠ "resource" →
      call_handler module handler_type params
        = outcomeOf (func (CallArgs.keyword
            (removeKey params "function_name")))) := by
  constructor
  · simp [call_handler, handler_body, hlook, hres, huri, hpar]
  · intro ht hne
    have hbeq : (ht == "resource") = false := beq_eq_false_iff_ne.mpr hne
    simp [call_handler, handler_body, hlook, hres, hbeq]

/-- **C9, witness**: the example payload
`{"uri": "math://pythagorean", "params": {}}` reaches the callable as
the positional pair, and the same payload under a non-resource handler
type reaches it as keyword arguments. -/
theorem c9_resource_positional_dispatch_witness :
    call_handler mathModule "resource" resourceParams
      = outcomeOf (probeFunc (CallArgs.positional
          (JSON.str "math://pythagorean") (JSON.obj []))) ∧
    call_handler mathModule "tool" resourceParams
      = outcomeOf (probeFunc (CallArgs.keyword
          (removeKey resourceParams "function_name"))) :=
  ⟨(c9_resource_positional_dispatch mathModule resourceParams
      "resource_math" probeFunc (JSON.str "math://pythagorean") (JSON.obj [])
      rfl rfl rfl rfl).1,
   (c9_resource_positional_dispatch mathModule resourceParams
      "resource_math" probeFunc (JSON.str "math://pythagorean") (JSON.obj [])
      rfl rfl rfl rfl).2 "tool" (by decide)⟩
